import Mathlib

/-!
Verification of the art-bot pipeline identity resolver.

This file shallowly embeds the parts of `artbotlib/pipeline_image_util.py`,
`artbotlib/pipeline_image_names.py` and `artbotlib/util.py` that the claims
are about.  External services (the doozer subprocess, the Errata tool, Pyxis,
the dist-git HTTP probe) are modelled as oracles supplied as explicit inputs;
Python exceptions are modelled with `Except` over an error type `PyErr` whose
constructors mirror the exception classes of the repository.
-/

/-- Splitting a character list on a nonempty separator, left to right and
non-overlapping, as Python str.split does.  The fuel argument is an upper
bound on the number of steps (each step consumes at least one character);
callers pass `length + 1`, so the fuel-exhausted fallback is unreachable. -/
def chSplit (sep : List Char) : Nat → List Char → List Char → List (List Char)
  | 0, l, acc => [acc.reverse ++ l]
  | _ + 1, [], acc => [acc.reverse]
  | fuel + 1, c :: rest, acc =>
    if sep.isPrefixOf (c :: rest) then
      acc.reverse :: chSplit sep fuel ((c :: rest).drop sep.length) []
    else
      chSplit sep fuel rest (c :: acc)

/-- Python str.split with a nonempty separator. -/
def pySplit (s sep : String) : List String :=
  (chSplit sep.data (s.data.length + 1) s.data []).map String.mk

/-- Python str.splitlines restricted to newline-separated text (the command
outputs consumed by the resolver only ever contain plain newlines):
`"a\nb\n"` gives `["a", "b"]`, the empty string gives `[]`. -/
def pySplitlines (s : String) : List String :=
  let parts := pySplit s "\n"
  if parts.getLast? = some "" then parts.dropLast else parts

/-- Python substring test `sub in s` for a nonempty pattern `sub`. -/
def pyContains (s sub : String) : Bool := (pySplit s sub).length != 1

/-- Python str.startswith. -/
def pyStartsWith (s p : String) : Bool := p.data.isPrefixOf s.data

/-- Python slicing `s[n:]` (by characters, like Python). -/
def pyDrop (s : String) (n : Nat) : String := String.mk (s.data.drop n)

/-- Python dict lookup (first binding wins; the builders below never create
duplicate keys). -/
def dictGet? {α : Type} : List (String × α) → String → Option α
  | [], _ => none
  | (k, v) :: rest, key => if k = key then some v else dictGet? rest key

/-- Python `key in dict`. -/
def dictContains {α : Type} (d : List (String × α)) (k : String) : Bool :=
  (dictGet? d k).isSome

/-- Python `dict[key] = value`: update in place when the key exists, append
otherwise (insertion order is preserved, as for a Python dict). -/
def dictSet {α : Type} : List (String × α) → String → α → List (String × α)
  | [], k, v => [(k, v)]
  | (k0, v0) :: rest, k, v =>
    if k0 = k then (k, v) :: rest else (k0, v0) :: dictSet rest k v

/-- Worker for `pyDedup`: keep elements not already seen. -/
def pyDedupGo : List String → List String → List String
  | [], _ => []
  | x :: xs, seen =>
    if x ∈ seen then pyDedupGo xs seen else x :: pyDedupGo xs (x :: seen)

/-- Python `list(set(l))` keeping the first occurrence of each element.
CPython leaves the order of a set unspecified; none of the call sites in the
source depends on the order, only on emptiness, multiplicity and membership. -/
def pyDedup (l : List String) : List String := pyDedupGo l []

/-- The exception classes raised by the embedded code.  Constructors carrying
a `String` mirror exception classes whose instances carry a message; the bare
constructors mirror Python builtin exceptions raised implicitly. -/
inductive PyErr where
  | distgitFromGithubNotFound (msg : String)
  | githubFromDistgitNotFound (msg : String)
  | distgitNotFound (msg : String)
  | nullDataReturned (msg : String)
  | artBotExceptions (msg : String)
  | cdnFromBrewNotFound (msg : String)
  | cdnNotFound (msg : String)
  | variantIdNotFound (msg : String)
  | brewIdNotFound (msg : String)
  | cdnIdNotFound (msg : String)
  | productIdNotFound (msg : String)
  | deliveryRepoNotFound (msg : String)
  | deliveryRepoUrlNotFound (msg : String)
  | deliveryRepoIdNotFound (msg : String)
  | brewFromDeliveryNotFound (msg : String)
  | multipleBrewFromDelivery (msg : String)
  | kerberosAuthenticationError (msg : String)
  | kojiClientError (msg : String)
  | runtimeError (msg : String)
  | otherError (msg : String)
  | keyError
  | valueError
  | indexError
  | typeError
  | attributeError
  deriving DecidableEq, Repr

/-- Whether the exception is an instance of the `ArtBotExceptions` base class
of `artbotlib/pipeline_image_names.py` / `artbotlib/exceptions.py`. -/
def PyErr.isArtBot : PyErr → Bool
  | .distgitFromGithubNotFound _ => true
  | .githubFromDistgitNotFound _ => true
  | .distgitNotFound _ => true
  | .nullDataReturned _ => true
  | .artBotExceptions _ => true
  | .cdnFromBrewNotFound _ => true
  | .cdnNotFound _ => true
  | .variantIdNotFound _ => true
  | .brewIdNotFound _ => true
  | .cdnIdNotFound _ => true
  | .productIdNotFound _ => true
  | .deliveryRepoNotFound _ => true
  | .deliveryRepoUrlNotFound _ => true
  | .deliveryRepoIdNotFound _ => true
  | .brewFromDeliveryNotFound _ => true
  | .multipleBrewFromDelivery _ => true
  | _ => false

/-- The `.message` attribute (for the builtin exceptions, the text Python
would show for `f"\x7be\x7d"`). -/
def PyErr.message : PyErr → String
  | .distgitFromGithubNotFound m => m
  | .githubFromDistgitNotFound m => m
  | .distgitNotFound m => m
  | .nullDataReturned m => m
  | .artBotExceptions m => m
  | .cdnFromBrewNotFound m => m
  | .cdnNotFound m => m
  | .variantIdNotFound m => m
  | .brewIdNotFound m => m
  | .cdnIdNotFound m => m
  | .productIdNotFound m => m
  | .deliveryRepoNotFound m => m
  | .deliveryRepoUrlNotFound m => m
  | .deliveryRepoIdNotFound m => m
  | .brewFromDeliveryNotFound m => m
  | .multipleBrewFromDelivery m => m
  | .kerberosAuthenticationError m => m
  | .kojiClientError m => m
  | .runtimeError m => m
  | .otherError m => m
  | .keyError => "KeyError"
  | .valueError => "ValueError"
  | .indexError => "IndexError"
  | .typeError => "TypeError"
  | .attributeError => "AttributeError"

namespace ImageUtil

/-- The three value shapes stored in the shared memoization cache by the three
`@util.cached` functions of `pipeline_image_util.py`. -/
inductive CacheVal where
  | ghMap (m : List (String × List String))
  | dgMap (m : List (String × String))
  | dbList (l : List (List String))
  deriving DecidableEq, Repr

/-- Model of `util.CACHE`: the single module-level `cachetools.LRUCache(maxsize=2000)`
shared by every function decorated with `util.cached`.  `cachetools.cached`
keys an entry by `hashkey(*args)` only, so for the one-argument functions the
key is just the version string.  LRU eviction only triggers beyond 2000
entries and is not modelled; no statement below involves more than a handful
of keys. -/
abbrev Cache := List (String × CacheVal)

/-- Cache lookup. -/
def cacheGet? (c : Cache) (k : String) : Option CacheVal := dictGet? c k

/-- The `util.cached` decorator applied to a one-argument function: on a hit
the stored value is returned with no external call; on a miss the body runs
(performing exactly one `cmd_gather` round trip) and, if it returns normally,
the result is stored under the argument-only key.  The third component counts
the external calls made by this invocation. -/
def cachedCall (key : String) (compute : Except PyErr CacheVal) (c : Cache) :
    Except PyErr CacheVal × Cache × Nat :=
  match cacheGet? c key with
  | some v => (.ok v, c, 0)
  | none =>
    match compute with
    | .ok v => (.ok v, (key, v) :: c, 1)
    | .error e => (.error e, c, 1)

/-- The external world: `artbotlib.exectools.cmd_gather` as an oracle from the
command line to `(rc, stdout, stderr)`. -/
structure Env where
  cmdGather : String → Int × String × String

/-- The exact command run by `github_distgit_mappings`. -/
def githubDistgitCmd (version : String) : String :=
  "doozer --disable-gssapi -g openshift-" ++ version ++
    " images:print --short \x27\x7bupstream_public\x7d: \x7bname\x7d\x27"

/-- The exact command run by `distgit_github_mappings`. -/
def distgitGithubCmd (version : String) : String :=
  "doozer --disable-gssapi -g openshift-" ++ version ++
    " images:print --short \x27\x7bname\x7d: \x7bupstream_public\x7d\x27"

/-- The exact command run by `doozer_brew_distgit`. -/
def doozerBrewDistgitCmd (version : String) : String :=
  "doozer --disable-gssapi -g openshift-" ++ version ++
    " images:print --short \x27\x7bcomponent\x7d: \x7bname\x7d\x27"

/-- The line loop of `github_distgit_mappings`: for each line
`github, distgit = line.split(": ")`, `reponame = github.split("/")[-1]`,
then `mappings[reponame] = [distgit]` when `github not in mappings`, else
`mappings[reponame].append(distgit)`.  Note the membership test is on the
full `github` string while the keys are the short `reponame`s, exactly as in
the source. -/
def buildGhMappings : List String → List (String × List String) →
    Except PyErr (List (String × List String))
  | [], m => .ok m
  | line :: rest, m =>
    match pySplit line ": " with
    | [github, distgit] =>
      let reponame := (pySplit github "/").getLastD ""
      if dictContains m github then
        match dictGet? m reponame with
        | some l => buildGhMappings rest (dictSet m reponame (l ++ [distgit]))
        | none => .error .keyError
      else
        buildGhMappings rest (dictSet m reponame [distgit])
    | _ => .error .valueError

/-- Body of `pipeline_image_util.github_distgit_mappings`, undecorated. -/
def github_distgit_mappings (env : Env) (version : String) :
    Except PyErr (List (String × List String)) :=
  let (rc, out, err) := env.cmdGather (githubDistgitCmd version)
  if rc ≠ 0 then
    if pyContains err "koji.GSSAPIAuthError" then
      .error (.kerberosAuthenticationError "Kerberos authentication failed for doozer")
    else
      .error (.runtimeError ("doozer returned status " ++ toString rc))
  else
    match buildGhMappings (pySplitlines out) [] with
    | .error e => .error e
    | .ok m =>
      if m.isEmpty then
        .error (.nullDataReturned "No data from doozer command for github-distgit mapping")
      else .ok m

/-- The line loop of `distgit_github_mappings`:
`distgit, github = line.split(": ")` then `mappings[distgit] = github`. -/
def buildDgMappings : List String → List (String × String) →
    Except PyErr (List (String × String))
  | [], m => .ok m
  | line :: rest, m =>
    match pySplit line ": " with
    | [distgit, github] => buildDgMappings rest (dictSet m distgit github)
    | _ => .error .valueError

/-- Body of `pipeline_image_util.distgit_github_mappings`, undecorated. -/
def distgit_github_mappings (env : Env) (version : String) :
    Except PyErr (List (String × String)) :=
  let (rc, out, err) := env.cmdGather (distgitGithubCmd version)
  if rc ≠ 0 then
    if pyContains err "koji.GSSAPIAuthError" then
      .error (.kerberosAuthenticationError "Kerberos authentication failed for doozer")
    else
      .error (.runtimeError ("doozer returned status " ++ toString rc))
  else
    match buildDgMappings (pySplitlines out) [] with
    | .error e => .error e
    | .ok m =>
      if m.isEmpty then
        .error (.nullDataReturned "No data from doozer command for distgit-github mapping")
      else .ok m

/-- Body of `pipeline_image_util.doozer_brew_distgit`, undecorated: no return
code check, only a GSSAPI scan of stderr, then `line.split(": ")` per line. -/
def doozer_brew_distgit (env : Env) (version : String) :
    Except PyErr (List (List String)) :=
  let (_, out, err) := env.cmdGather (doozerBrewDistgitCmd version)
  if pyContains err "koji.GSSAPIAuthError" then
    .error (.kerberosAuthenticationError "Kerberos authentication failed for doozer")
  else
    .ok ((pySplitlines out).map (fun line => pySplit line ": "))

/-- Model of `github_distgit_mappings` as actually called: through `util.cached`. -/
def cached_github_distgit_mappings (env : Env) (version : String) (c : Cache) :
    Except PyErr CacheVal × Cache × Nat :=
  cachedCall version ((github_distgit_mappings env version).map CacheVal.ghMap) c

/-- Model of `distgit_github_mappings` as actually called: through `util.cached`,
with the same shared cache and the same argument-only key. -/
def cached_distgit_github_mappings (env : Env) (version : String) (c : Cache) :
    Except PyErr CacheVal × Cache × Nat :=
  cachedCall version ((distgit_github_mappings env version).map CacheVal.dgMap) c

/-- Model of `doozer_brew_distgit` as actually called: through `util.cached`. -/
def cached_doozer_brew_distgit (env : Env) (version : String) (c : Cache) :
    Except PyErr CacheVal × Cache × Nat :=
  cachedCall version ((doozer_brew_distgit env version).map CacheVal.dbList) c

/-- A Python value flowing out of a mapping lookup: the tables hold either a
string (distgit to github) or a list of strings (github to distgits), and a
cache collision can hand either table to either caller. -/
inductive PyVal where
  | str (s : String)
  | strList (l : List String)
  deriving DecidableEq, Repr

/-- Model of `pipeline_image_util.github_to_distgit`: `data = github_distgit_mappings
(version)` then `data[github_name]`, with `KeyError` mapped to
`DistgitFromGithubNotFound`.  `data` is whatever the shared cache returned;
indexing a list with a string raises `TypeError`, which the `except KeyError`
clause does not catch. -/
def github_to_distgit (env : Env) (github_name version : String) (c : Cache) :
    Except PyErr PyVal × Cache :=
  match cached_github_distgit_mappings env version c with
  | (.error e, c1, _) => (.error e, c1)
  | (.ok val, c1, _) =>
    match val with
    | .ghMap m =>
      match dictGet? m github_name with
      | some l => (.ok (.strList l), c1)
      | none =>
        (.error (.distgitFromGithubNotFound
          ("Couldn\x27t find Distgit repo from GitHub `" ++ github_name ++
            "` and version `" ++ version ++ "`")), c1)
    | .dgMap m =>
      match dictGet? m github_name with
      | some s => (.ok (.str s), c1)
      | none =>
        (.error (.distgitFromGithubNotFound
          ("Couldn\x27t find Distgit repo from GitHub `" ++ github_name ++
            "` and version `" ++ version ++ "`")), c1)
    | .dbList _ => (.error .typeError, c1)

/-- Model of `pipeline_image_util.distgit_to_github`: `data = distgit_github_mappings
(version)` then `data[distgit_name].split("/")[-1]`, with `KeyError` mapped
to `GithubFromDistgitNotFound`.  When the shared cache hands back the
github-keyed table, the value is a list and `.split` raises
`AttributeError`, which the `except KeyError` clause does not catch. -/
def distgit_to_github (env : Env) (distgit_name version : String) (c : Cache) :
    Except PyErr PyVal × Cache :=
  match cached_distgit_github_mappings env version c with
  | (.error e, c1, _) => (.error e, c1)
  | (.ok val, c1, _) =>
    match val with
    | .dgMap m =>
      match dictGet? m distgit_name with
      | some s => (.ok (.str ((pySplit s "/").getLastD "")), c1)
      | none =>
        (.error (.githubFromDistgitNotFound
          ("Couldn\x27t find GitHub repo from distgit `" ++ distgit_name ++
            "` and version `" ++ version ++ "`")), c1)
    | .ghMap m =>
      match dictGet? m distgit_name with
      | some _ => (.error .attributeError, c1)
      | none =>
        (.error (.githubFromDistgitNotFound
          ("Couldn\x27t find GitHub repo from distgit `" ++ distgit_name ++
            "` and version `" ++ version ++ "`")), c1)
    | .dbList _ => (.error .typeError, c1)

end ImageUtil

/-- The Errata tool (release-management API) as an oracle.  `packageTags*`
model the `cdn_repo_package_tags?filter[package_name]=` endpoint used by
`pipeline_image_util.brew_to_cdn`; `namesPackageTags*` model the
`cdn_repo_package_tags?page[number]=1&filter[package_name]=..&filter
[variant_name]=..` endpoint used by `pipeline_image_names.brew_to_cdn`
(keyed by package and variant, since the variant travels in the URL);
`cdnDetailsStatus`/`cdnVariants` model the `cdn_repos/\x7bname\x7d` detail
document, whose `relationships.variants` list is either present
(`some` list of (name, id) entries) or structurally missing (`none`, making
any access raise). -/
structure ErrataEnv where
  packageTagsStatus : String → Int
  packageTagsData : String → List String
  namesPackageTagsStatus : String → String → Int
  namesPackageTagsData : String → String → List String
  cdnDetailsStatus : String → Int
  cdnVariants : String → Option (List (String × Int))

/-- The relevant projection of a CDN repo detail document. -/
structure CdnDoc where
  variants : Option (List (String × Int))
  deriving DecidableEq, Repr

/-- The Pyxis container-catalog API as an oracle: for a delivery repo, the
HTTP status of the `repositories/registry/..../images` endpoint and the
`data[*].brew.package` names of the returned images. -/
structure PyxisEnv where
  imagesStatus : String → Int
  imagesData : String → List String

namespace ImageUtil

/-- Model of `pipeline_image_util.get_cdn_repo_details`: `request_with_kerberos`
raises on a 401, a 404 raises `CdnNotFound`, otherwise the parsed JSON
document is returned. -/
def get_cdn_repo_details (env : ErrataEnv) (cdn_name : String) :
    Except PyErr CdnDoc :=
  if env.cdnDetailsStatus cdn_name = 401 then
    .error (.kerberosAuthenticationError "Kerberos Authentication failed")
  else if env.cdnDetailsStatus cdn_name = 404 then
    .error (.cdnNotFound ("CDN was not found for CDN name " ++ cdn_name))
  else .ok ⟨env.cdnVariants cdn_name⟩

/-- The cross-check loop of `pipeline_image_util.brew_to_cdn`: for each
candidate repo, fetch its detail document and keep the repo exactly when an
entry of its variant list has `name == variant_name`.  Accessing a missing
variants structure raises (uncaught) in the source. -/
def filterByVariant (env : ErrataEnv) (variant_name : String) :
    List String → Except PyErr (List String)
  | [] => .ok []
  | repo :: rest =>
    match get_cdn_repo_details env repo with
    | .error e => .error e
    | .ok doc =>
      match doc.variants with
      | none => .error .keyError
      | some vs =>
        match filterByVariant env variant_name rest with
        | .error e => .error e
        | .ok rs =>
          .ok (if vs.any (fun v => v.1 = variant_name) then repo :: rs else rs)

/-- Model of `pipeline_image_util.brew_to_cdn`: query all CDN repo/package-tag
relationships for the package, deduplicate the candidate repo names, keep
only candidates whose detail document binds the requested variant, and raise
`CdnFromBrewNotFound` when the filtered list is empty.  The `if not
response.status_code` guard of the source only fires on a zero status. -/
def brew_to_cdn (env : ErrataEnv) (brew_name variant_name : String) :
    Except PyErr (List String) :=
  let st := env.packageTagsStatus brew_name
  if st = 401 then
    .error (.kerberosAuthenticationError "Kerberos Authentication failed")
  else if st = 0 then
    .error (.artBotExceptions
      ("Failed fetching data from https://errata.devel.redhat.com/api/v1/cdn_repo_package_tags?filter[package_name]="
        ++ brew_name))
  else
    match filterByVariant env variant_name (pyDedup (env.packageTagsData brew_name)) with
    | .error e => .error e
    | .ok results =>
      if results.isEmpty then
        .error (.cdnFromBrewNotFound
          ("CDN was not found for brew `" ++ brew_name ++ "` and variant `"
            ++ variant_name ++ "`"))
      else .ok results

/-- The loop of `pipeline_image_util.get_variant_id`: return the id of the
first variant entry named `variant_name`; a loop that finds no match falls
through. -/
def firstVariantId : List (String × Int) → String → Option Int
  | [], _ => none
  | (n, i) :: rest, v => if n = v then some i else firstVariantId rest v

/-- Model of `pipeline_image_util.get_variant_id`: fetch the CDN detail document, scan
its variant list for `variant_name` and return the matching id.  The
`except` clause turning a failure into `VariantIdNotFound` only fires when
accessing the variants structure raises; a loop that completes without a
match returns Python `None` (modelled as `.ok none`). -/
def get_variant_id (env : ErrataEnv) (cdn_name variant_name : String) :
    Except PyErr (Option Int) :=
  match get_cdn_repo_details env cdn_name with
  | .error e => .error e
  | .ok doc =>
    match doc.variants with
    | none =>
      .error (.variantIdNotFound
        ("Variant ID not found for CDN `" ++ cdn_name ++ "` and variant `"
          ++ variant_name ++ "`"))
    | some vs => .ok (firstVariantId vs variant_name)

/-- Model of `pipeline_image_util.brew_from_delivery`: 401 raises the Kerberos error,
404 raises `BrewFromDeliveryNotFound`, more than one distinct package name
raises `MultipleBrewFromDelivery`, and otherwise `result.pop()` returns the
last element of the deduplicated list - raising `IndexError` when the
response carried no images at all. -/
def brew_from_delivery (env : PyxisEnv) (delivery_repo : String) :
    Except PyErr String :=
  let st := env.imagesStatus delivery_repo
  if st = 401 then
    .error (.kerberosAuthenticationError "Kerberos Authentication failed")
  else if st = 404 then
    .error (.brewFromDeliveryNotFound
      ("Brew package could not be found from delivery repo `" ++ delivery_repo ++ "`"))
  else
    let result := pyDedup (env.imagesData delivery_repo)
    if 1 < result.length then
      .error (.multipleBrewFromDelivery
        ("Multiple brew packages found for delivery repo `" ++ delivery_repo ++ "`"))
    else
      match result.getLast? with
      | none => .error .indexError
      | some b => .ok b

end ImageUtil

/-- A parsed YAML document, as produced by `yaml.safe_load` (restricted to
string keys, which is all the build recipes use). -/
inductive Yaml where
  | nullV
  | boolV (b : Bool)
  | intV (n : Int)
  | strV (s : String)
  | listV (l : List Yaml)
  | dictV (d : List (String × Yaml))

/-- Python truthiness of a YAML value. -/
def Yaml.truthy : Yaml → Bool
  | .nullV => false
  | .boolV b => b
  | .intV n => n != 0
  | .strV s => s != ""
  | .listV l => !l.isEmpty
  | .dictV d => !d.isEmpty

namespace ImageUtil

/-- Model of `pipeline_image_util.get_image_stream_tag`: the recipe document is
fetched and `yaml.safe_load`-ed with no status check - `status` is accepted
and never read, as in the source.  A non-mapping body has no `.get`, so the
call raises `AttributeError`; a mapping without a truthy `for_payload` falls
through to an implicit `None`; otherwise the second `/`-segment of the
`name` field is returned, with a leading `ose-` stripped. -/
def get_image_stream_tag (status : Int) (body : Yaml) :
    Except PyErr (Option String) :=
  match body with
  | .dictV d =>
    if ((dictGet? d "for_payload").getD (.boolV false)).truthy then
      match dictGet? d "name" with
      | none => .error .keyError
      | some (.strV s) =>
        match (pySplit s "/").get? 1 with
        | none => .error .indexError
        | some tag =>
          .ok (some (if pyStartsWith tag "ose-" then pyDrop tag 4 else tag))
      | some _ => .error .attributeError
    else .ok none
  | _ => .error .attributeError

end ImageUtil

namespace ImageNames

/-- Model of `pipeline_image_names.brew_to_cdn`: the variant is passed to the Errata
API as a URL filter and the returned candidate names are collected without
deduplication and without any client-side cross-check of each candidate
against its detail document; an empty list raises `CdnFromBrewNotFound`. -/
def brew_to_cdn (env : ErrataEnv) (brew_name variant_name : String) :
    Except PyErr (List String) :=
  if env.namesPackageTagsStatus brew_name variant_name = 401 then
    .error (.kerberosAuthenticationError "Kerberos authentication failed.")
  else
    let repos := env.namesPackageTagsData brew_name variant_name
    if repos.isEmpty then
      .error (.cdnFromBrewNotFound
        ("CDN was not found for brew `" ++ brew_name ++ "` and variant `"
          ++ variant_name ++ "`"))
    else .ok repos

/-- One interaction with the chat sink or one lookup invocation.  `say` and
`monitoringSay` are the two reply channels of the SlackOutput object; a
`call` records that the driver invoked the named lookup function. -/
inductive Ev where
  | say (msg : String)
  | monitoringSay (msg : String)
  | call (fn : String)
  deriving DecidableEq, Repr

/-- The chat replies among a list of events. -/
def sayMsgs : List Ev → List String
  | [] => []
  | .say m :: rest => m :: sayMsgs rest
  | _ :: rest => sayMsgs rest

/-- The lookup functions invoked among a list of events. -/
def callFns : List Ev → List String
  | [] => []
  | .call f :: rest => f :: callFns rest
  | _ :: rest => callFns rest

/-- Whether a list of events consists of lookup invocations only (no chat
output). -/
def callOnly (evs : List Ev) : Bool :=
  evs.all fun e =>
    match e with
    | .call _ => true
    | _ => false

/-- The lookup functions called by `pipeline_from_distgit`, as oracles.
Each is a single blocking network-backed call of the `pipeline_image_names`
module that either returns a value or raises; their internals are modelled
elsewhere in this file where a claim is about them. -/
structure DriverEnv where
  distgit_is_available : String → Bool
  get_github_from_distgit : String → String → Except PyErr String
  distgit_to_brew : String → String → Except PyErr String
  get_brew_id : String → Except PyErr Int
  get_image_stream_tag : String → String → Except PyErr (Option String)
  brew_to_cdn : String → String → Except PyErr (List String)
  get_cdn_repo_id : String → Except PyErr Int
  get_variant_id : String → String → Except PyErr (Option Int)
  get_product_id : Option Int → Except PyErr Int
  cdn_to_comet : String → Except PyErr String
  get_delivery_repo_id : String → Except PyErr String

/-- First chat message of the driver. -/
def fetchMsg : String := "Fetching data. Please wait..."

/-- Upstream GitHub report line. -/
def ghLine1 (g : String) : String :=
  s!"Upstream GitHub repository: <https://github.com/openshift/{g}|*openshift/{g}*>\n"

/-- Private GitHub report line. -/
def ghLine2 (g : String) : String :=
  s!"Private GitHub repository: <https://github.com/openshift-priv/{g}|*openshift-priv/{g}*>\n"

/-- Production dist-git report line. -/
def dgLine (d : String) : String :=
  s!"Production dist-git repo: <https://pkgs.devel.redhat.com/cgit/containers/{d}|*{d}*>\n"

/-- Production brew builds report line. -/
def brewLine (brew_id : Int) (brew : String) : String :=
  s!"Production brew builds: <https://brewweb.engineering.redhat.com/brew/packageinfo?packageID={brew_id}|*{brew}*>\n"

/-- Payload tag report line. -/
def tagLine (tag : String) : String := s!"Payload tag: *{tag}* \n"

/-- Fan-out notice for multiple Brew to CDN mappings. -/
def multiCdnNotice : String := "\n *Found more than one Brew to CDN mappings:*\n\n"

/-- CDN repo report line. -/
def cdnLine (product_id cdn_repo_id : Int) (cdn : String) : String :=
  s!"CDN repo: <https://errata.devel.redhat.com/product_versions/{product_id}/cdn_repos/{cdn_repo_id}|*{cdn}*>\n"

/-- Delivery repo report line. -/
def deliveryLine (repo_id delivery : String) : String :=
  s!"Delivery (Comet) repo: <https://comet.engineering.redhat.com/containers/repositories/{repo_id}|*{delivery}*>\n\n"

/-- Reply for a nonexistent starting dist-git. -/
def noDistgitMsg (d : String) : String :=
  s!"No distgit repo with name *{d}* exists."

/-- The version actually used: `if not version: version = "4.10"`. -/
def verString (version : Option String) : String :=
  match version with
  | none => "4.10"
  | some s => if s = "" then "4.10" else s

/-- The report text accumulated before the `try` block: the two GitHub lines
and the dist-git line. -/
def upstreamReport (g d : String) : String :=
  ghLine1 g ++ ghLine2 g ++ dgLine d

/-- The per-CDN loop of the `try` block of `pipeline_from_distgit`,
threading the accumulated payload and the lookup-call trace; the first
exception aborts the loop with the payload accumulated so far. -/
def cdnLoop (env : DriverEnv) (variant : String) :
    List String → String → List Ev → String × List Ev × Option PyErr
  | [], payload, evs => (payload, evs, none)
  | cdn :: rest, payload, evs =>
    let evs := evs ++ [Ev.call "get_cdn_repo_id"]
    match env.get_cdn_repo_id cdn with
    | .error e => (payload, evs, some e)
    | .ok cdn_repo_id =>
      let evs := evs ++ [Ev.call "get_variant_id"]
      match env.get_variant_id cdn variant with
      | .error e => (payload, evs, some e)
      | .ok variant_id =>
        let evs := evs ++ [Ev.call "get_product_id"]
        match env.get_product_id variant_id with
        | .error e => (payload, evs, some e)
        | .ok product_id =>
          let payload := payload ++ cdnLine product_id cdn_repo_id cdn
          let evs := evs ++ [Ev.call "cdn_to_comet"]
          match env.cdn_to_comet cdn with
          | .error e => (payload, evs, some e)
          | .ok delivery =>
            let evs := evs ++ [Ev.call "get_delivery_repo_id"]
            match env.get_delivery_repo_id delivery with
            | .error e => (payload, evs, some e)
            | .ok repo_id =>
              cdnLoop env variant rest (payload ++ deliveryLine repo_id delivery) evs

/-- The `try` block of `pipeline_from_distgit`: brew, tag, CDN and delivery
lookups, accumulating report text; the first exception aborts the block and
is handed back with the payload accumulated so far. -/
def tryBlock (env : DriverEnv) (dg v : String) (payload : String) :
    String × List Ev × Option PyErr :=
  let evs := [Ev.call "distgit_to_brew"]
  match env.distgit_to_brew dg v with
  | .error e => (payload, evs, some e)
  | .ok brew =>
    let evs := evs ++ [Ev.call "get_brew_id"]
    match env.get_brew_id brew with
    | .error e => (payload, evs, some e)
    | .ok brew_id =>
      let payload := payload ++ brewLine brew_id brew
      let evs := evs ++ [Ev.call "get_image_stream_tag"]
      match env.get_image_stream_tag dg v with
      | .error e => (payload, evs, some e)
      | .ok tag? =>
        let payload :=
          match tag? with
          | some tag => if tag = "" then payload else payload ++ tagLine tag
          | none => payload
        let variant := "8Base-RHOSE-" ++ v
        let evs := evs ++ [Ev.call "brew_to_cdn"]
        match env.brew_to_cdn brew variant with
        | .error e => (payload, evs, some e)
        | .ok cdns =>
          let payload := if 1 < cdns.length then payload ++ multiCdnNotice else payload
          cdnLoop env variant cdns payload evs

/-- Model of `pipeline_image_names.pipeline_from_distgit`: the full driver.  Replies
and monitoring messages are collected as events; the second component is an
exception escaping the function, which happens exactly when
`get_github_from_distgit` raises (it is called outside the `try` block).
Note that the `except KojiClientError` and `except Exception` handlers do
not return, so control falls through to the final `so.say(payload)`. -/
def pipeline_from_distgit (env : DriverEnv) (distgit_repo_name : String)
    (version : Option String) : List Ev × Option PyErr :=
  let evs := [Ev.say fetchMsg]
  let v := verString version
  let evs := evs ++ [Ev.call "distgit_is_available"]
  if env.distgit_is_available distgit_repo_name then
    let evs := evs ++ [Ev.call "get_github_from_distgit"]
    match env.get_github_from_distgit distgit_repo_name v with
    | .error e => (evs, some e)
    | .ok github_repo =>
      let payload := upstreamReport github_repo distgit_repo_name
      match tryBlock env distgit_repo_name v payload with
      | (payload, tevs, exc) =>
        let evs := evs ++ tevs
        match exc with
        | none => (evs ++ [Ev.say payload], none)
        | some e =>
          if e.isArtBot then
            (evs ++ [Ev.say (payload ++ "\n" ++ e.message),
                     Ev.monitoringSay ("ERROR: " ++ e.message)], none)
          else
            match e with
            | .kerberosAuthenticationError m =>
              (evs ++ [Ev.say (m ++ " Contact the ART Team"),
                       Ev.monitoringSay ("ERROR: " ++ m ++ " Check keytab.")], none)
            | .kojiClientError m =>
              (evs ++ [Ev.say m, Ev.monitoringSay ("ERROR: " ++ m),
                       Ev.say payload], none)
            | _ =>
              (evs ++ [Ev.say "Unknown error. Contact the ART team.",
                       Ev.monitoringSay ("ERROR: Unclassified: " ++ e.message),
                       Ev.say payload], none)
  else
    (evs ++ [Ev.monitoringSay (noDistgitMsg distgit_repo_name),
             Ev.say (noDistgitMsg distgit_repo_name)], none)

end ImageNames

/-! Concrete worlds used to evaluate the embedded code on explicit inputs. -/

/-- A doozer world for version 4.10 with a single component `dg` whose public
upstream is `openshift/repo`; each of the three mapping commands prints its
own two-column table. -/
def envA : ImageUtil.Env :=
  ⟨fun cmd =>
    if cmd = ImageUtil.githubDistgitCmd "4.10" then (0, "openshift/repo: dg\n", "")
    else if cmd = ImageUtil.distgitGithubCmd "4.10" then (0, "dg: openshift/repo\n", "")
    else if cmd = ImageUtil.doozerBrewDistgitCmd "4.10" then (0, "dg-container: dg\n", "")
    else (1, "", "")⟩

/-- A doozer world for version 4.10 where the single GitHub repo
`openshift/repo` is the public upstream of the two components `dg1` and
`dg2`. -/
def envB : ImageUtil.Env :=
  ⟨fun cmd =>
    if cmd = ImageUtil.githubDistgitCmd "4.10" then
      (0, "openshift/repo: dg1\nopenshift/repo: dg2\n", "")
    else if cmd = ImageUtil.distgitGithubCmd "4.10" then
      (0, "dg1: openshift/repo\ndg2: openshift/repo\n", "")
    else (1, "", "")⟩

/-- An Errata world: the unfiltered package-tag endpoint lists `cdn-x` twice
and `cdn-y` once for any package; the variant-filtered endpoint used by
`pipeline_image_names` returns `cdn-x` (a repo whose detail document only
binds variant `8Base-RHOSE-4.11`); `cdn-y` is the repo bound to
`8Base-RHOSE-4.10`. -/
def errataEnvC : ErrataEnv :=
  ⟨fun _ => 200,
   fun _ => ["cdn-x", "cdn-y", "cdn-x"],
   fun _ _ => 200,
   fun _ _ => ["cdn-x"],
   fun _ => 200,
   fun c =>
     if c = "cdn-x" then some [("8Base-RHOSE-4.11", 3)]
     else if c = "cdn-y" then some [("8Base-RHOSE-4.10", 7)]
     else none⟩

/-- An Errata world with a single CDN repo `cdn-z` whose well-formed detail
document binds only the variant `8Base-RHOSE-4.10` (id 7). -/
def errataEnvD : ErrataEnv :=
  ⟨fun _ => 200, fun _ => [], fun _ _ => 200, fun _ _ => [], fun _ => 200,
   fun c => if c = "cdn-z" then some [("8Base-RHOSE-4.10", 7)] else none⟩

/-- A Pyxis world that answers every images query with HTTP 200 and an empty
image list: the delivery repo exists but no Brew package has published
images under it. -/
def pyxisEnvEmpty : PyxisEnv := ⟨fun _ => 200, fun _ => []⟩

/-- A Pyxis world where every delivery repo is backed by the single Brew
package `ose-x-container` (listed twice, so deduplication matters). -/
def pyxisEnvOne : PyxisEnv :=
  ⟨fun _ => 200, fun _ => ["ose-x-container", "ose-x-container"]⟩

/-- A driver world where the dist-git exists but the GitHub lookup (called
outside the `try` block) raises its taxonomy error. -/
def driverEnvGhFail : ImageNames.DriverEnv :=
  ⟨fun _ => true,
   fun d v => .error (.githubFromDistgitNotFound
     ("Couldn\x27t find GitHub repo from distgit `" ++ d ++ "` and version `" ++ v ++ "`")),
   fun _ _ => .error (.otherError "unused"),
   fun _ => .error (.otherError "unused"),
   fun _ _ => .error (.otherError "unused"),
   fun _ _ => .error (.otherError "unused"),
   fun _ => .error (.otherError "unused"),
   fun _ _ => .error (.otherError "unused"),
   fun _ => .error (.otherError "unused"),
   fun _ => .error (.otherError "unused"),
   fun _ => .error (.otherError "unused")⟩

/-- A driver world where the upstream lookups succeed and `get_brew_id` then
raises `KojiClientError` (the build system is unreachable). -/
def driverEnvKoji : ImageNames.DriverEnv :=
  ⟨fun _ => true,
   fun _ _ => .ok "repo",
   fun d _ => .ok (d ++ "-container"),
   fun _ => .error (.kojiClientError "Failed to connect to Brew."),
   fun _ _ => .error (.otherError "unused"),
   fun _ _ => .error (.otherError "unused"),
   fun _ => .error (.otherError "unused"),
   fun _ _ => .error (.otherError "unused"),
   fun _ => .error (.otherError "unused"),
   fun _ => .error (.otherError "unused"),
   fun _ => .error (.otherError "unused")⟩

/-- A driver world whose existence probe rejects every dist-git name. -/
def driverEnvUnavail : ImageNames.DriverEnv :=
  ⟨fun _ => false,
   fun _ _ => .error (.otherError "unused"),
   fun _ _ => .error (.otherError "unused"),
   fun _ => .error (.otherError "unused"),
   fun _ _ => .error (.otherError "unused"),
   fun _ _ => .error (.otherError "unused"),
   fun _ => .error (.otherError "unused"),
   fun _ _ => .error (.otherError "unused"),
   fun _ => .error (.otherError "unused"),
   fun _ => .error (.otherError "unused"),
   fun _ => .error (.otherError "unused")⟩

/-- A driver world where the upstream lookups succeed and the Brew lookup
then raises the taxonomy error `DistgitNotFound`. -/
def driverEnvArtBot : ImageNames.DriverEnv :=
  ⟨fun _ => true,
   fun _ _ => .ok "repo",
   fun _ _ => .error (.distgitNotFound
     "image dist-git dg definition was not found at https://raw.githubusercontent.com/openshift/ocp-build-data/openshift-4.10/images/dg.yml"),
   fun _ => .error (.otherError "unused"),
   fun _ _ => .error (.otherError "unused"),
   fun _ _ => .error (.otherError "unused"),
   fun _ => .error (.otherError "unused"),
   fun _ _ => .error (.otherError "unused"),
   fun _ => .error (.otherError "unused"),
   fun _ => .error (.otherError "unused"),
   fun _ => .error (.otherError "unused")⟩

/-! Shared lemmas. -/

/-- A fresh cache entry is found by the next lookup under the same key. -/
theorem cacheGet_insert_self (c : ImageUtil.Cache) (k : String) (v : ImageUtil.CacheVal) :
    ImageUtil.cacheGet? ((k, v) :: c) k = some v := by
  simp [ImageUtil.cacheGet?, dictGet?]

/-- C1.  [code_bug evaluation] In one process with the shared argument-keyed
cache, `github_distgit_mappings("4.10")` performs the single doozer call and
stores the github-keyed table; the subsequent `distgit_github_mappings
("4.10")` performs no external call (third component 0) but returns that
same github-keyed table unchanged, not the distgit-to-github inverse that
its own body (third conjunct) would have produced from the same data. -/
theorem distgit_github_mappings_returns_first_cached_table :
    ImageUtil.cached_github_distgit_mappings envA "4.10" [] =
      (.ok (.ghMap [("repo", ["dg"])]),
        [("4.10", .ghMap [("repo", ["dg"])])], 1) ∧
    ImageUtil.cached_distgit_github_mappings envA "4.10"
        [("4.10", .ghMap [("repo", ["dg"])])] =
      (.ok (.ghMap [("repo", ["dg"])]),
        [("4.10", .ghMap [("repo", ["dg"])])], 0) ∧
    ImageUtil.distgit_github_mappings envA "4.10" = .ok [("dg", "openshift/repo")] ∧
    ImageUtil.CacheVal.ghMap [("repo", ["dg"])] ≠
      ImageUtil.CacheVal.dgMap [("dg", "openshift/repo")] := by
  refine ⟨rfl, rfl, rfl, ?_⟩
  decide

/-- C2.  All `util.cached` functions share one cache keyed by argument values
only: once `github_distgit_mappings(v)` has returned a value, calling
`distgit_github_mappings(v)` or `doozer_brew_distgit(v)` in the same process
returns that very value from the cache, with zero external calls and the
cache unchanged. -/
theorem cached_functions_share_argument_keyed_cache
    (env : ImageUtil.Env) (v : String) (c0 : ImageUtil.Cache)
    (val : ImageUtil.CacheVal) (c1 : ImageUtil.Cache) (n : Nat)
    (h : ImageUtil.cached_github_distgit_mappings env v c0 = (.ok val, c1, n)) :
    ImageUtil.cached_distgit_github_mappings env v c1 = (.ok val, c1, 0) ∧
    ImageUtil.cached_doozer_brew_distgit env v c1 = (.ok val, c1, 0) := by
  have hkey : ImageUtil.cacheGet? c1 v = some val := by
    unfold ImageUtil.cached_github_distgit_mappings ImageUtil.cachedCall at h
    cases hg : ImageUtil.cacheGet? c0 v with
    | some w =>
      rw [hg] at h
      simp only [Prod.mk.injEq, Except.ok.injEq] at h
      obtain ⟨h1, h2, -⟩ := h
      rw [← h2, hg, h1]
    | none =>
      rw [hg] at h
      cases hc : (ImageUtil.github_distgit_mappings env v).map ImageUtil.CacheVal.ghMap with
      | ok w =>
        rw [hc] at h
        simp only [Prod.mk.injEq, Except.ok.injEq] at h
        obtain ⟨h1, h2, -⟩ := h
        rw [← h2, ← h1]
        exact cacheGet_insert_self c0 v w
      | error e =>
        rw [hc] at h
        simp only [Prod.mk.injEq] at h
        exact absurd h.1 (by simp)
  constructor
  · unfold ImageUtil.cached_distgit_github_mappings ImageUtil.cachedCall
    rw [hkey]
  · unfold ImageUtil.cached_doozer_brew_distgit ImageUtil.cachedCall
    rw [hkey]

/-- C2 witness: in the world `envA`, after `github_distgit_mappings("4.10")`
populated the cache, both other cached functions return the github-keyed
table with zero external calls. -/
theorem cached_functions_share_argument_keyed_cache_witness :
    ImageUtil.cached_distgit_github_mappings envA "4.10"
        [("4.10", .ghMap [("repo", ["dg"])])] =
      (.ok (.ghMap [("repo", ["dg"])]),
        [("4.10", .ghMap [("repo", ["dg"])])], 0) ∧
    ImageUtil.cached_doozer_brew_distgit envA "4.10"
        [("4.10", .ghMap [("repo", ["dg"])])] =
      (.ok (.ghMap [("repo", ["dg"])]),
        [("4.10", .ghMap [("repo", ["dg"])])], 0) :=
  cached_functions_share_argument_keyed_cache envA "4.10" []
    (.ghMap [("repo", ["dg"])]) [("4.10", .ghMap [("repo", ["dg"])])] 1 rfl

/-- C3.  [code_bug evaluation] In the world `envB`, where `openshift/repo`
is the upstream of both `dg1` and `dg2`: (i) the sequenced round trip
`distgit_to_github("dg1")` then `github_to_distgit("repo")` raises
`DistgitFromGithubNotFound` instead of returning a list, because the second
call receives the distgit-keyed table of the first call from the shared
argument-keyed cache; (ii) even with a cold cache, `github_to_distgit
("repo")` returns `["dg2"]` only - the builder tests `github not in
mappings` against the full upstream path while keying by the short repo
name, so the append branch never runs and `dg2` overwrites `dg1`; the
result does not contain `dg1`. -/
theorem github_distgit_round_trip_fails :
    ImageUtil.distgit_to_github envB "dg1" "4.10" [] =
      (.ok (.str "repo"),
        [("4.10", .dgMap [("dg1", "openshift/repo"), ("dg2", "openshift/repo")])]) ∧
    ImageUtil.github_to_distgit envB "repo" "4.10"
        [("4.10", .dgMap [("dg1", "openshift/repo"), ("dg2", "openshift/repo")])] =
      (.error (.distgitFromGithubNotFound
          "Couldn\x27t find Distgit repo from GitHub `repo` and version `4.10`"),
        [("4.10", .dgMap [("dg1", "openshift/repo"), ("dg2", "openshift/repo")])]) ∧
    ImageUtil.github_to_distgit envB "repo" "4.10" [] =
      (.ok (.strList ["dg2"]), [("4.10", .ghMap [("repo", ["dg2"])])]) ∧
    "dg1" ∉ ["dg2"] := by
  refine ⟨rfl, rfl, rfl, ?_⟩
  decide

/-- A successful CDN detail fetch returns exactly the document of the oracle. -/
theorem get_cdn_repo_details_ok_variants (env : ErrataEnv) (c : String)
    (doc : CdnDoc) (h : ImageUtil.get_cdn_repo_details env c = .ok doc) :
    doc.variants = env.cdnVariants c := by
  unfold ImageUtil.get_cdn_repo_details at h
  split at h
  · cases h
  · split at h
    · cases h
    · injection h with h
      rw [← h]

/-- A failing CDN detail fetch raises only the Kerberos or CdnNotFound
errors. -/
theorem get_cdn_repo_details_error (env : ErrataEnv) (c : String)
    (e : PyErr) (h : ImageUtil.get_cdn_repo_details env c = .error e) :
    e = .kerberosAuthenticationError "Kerberos Authentication failed" ∨
    e = .cdnNotFound ("CDN was not found for CDN name " ++ c) := by
  unfold ImageUtil.get_cdn_repo_details at h
  split at h
  · injection h with h
    exact Or.inl h.symm
  · split at h
    · injection h with h
      exact Or.inr h.symm
    · cases h

/-- Every repo kept by the cross-check loop has the requested variant name
in its detail document. -/
theorem filterByVariant_ok_sound (env : ErrataEnv) (V : String) :
    ∀ (l res : List String), ImageUtil.filterByVariant env V l = .ok res →
    ∀ r ∈ res, ∃ vs, env.cdnVariants r = some vs ∧
      vs.any (fun p => p.1 = V) = true := by
  intro l
  induction l with
  | nil =>
    intro res h r hr
    unfold ImageUtil.filterByVariant at h
    injection h with h
    subst h
    cases hr
  | cons repo rest ih =>
    intro res h r hr
    unfold ImageUtil.filterByVariant at h
    cases hd : ImageUtil.get_cdn_repo_details env repo with
    | error e => simp only [hd] at h; exact Except.noConfusion h
    | ok doc =>
      simp only [hd] at h
      cases hv : doc.variants with
      | none => simp only [hv] at h; exact Except.noConfusion h
      | some vs =>
        simp only [hv] at h
        cases hrec : ImageUtil.filterByVariant env V rest with
        | error e => simp only [hrec] at h; exact Except.noConfusion h
        | ok rs =>
          simp only [hrec, Except.ok.injEq] at h
          subst h
          by_cases hany : vs.any (fun p => p.1 = V) = true
          · rw [if_pos hany] at hr
            rcases List.mem_cons.mp hr with hrepo | hmem
            · subst hrepo
              have := get_cdn_repo_details_ok_variants env r doc hd
              exact ⟨vs, by rw [← this, hv], hany⟩
            · exact ih rs hrec r hmem
          · rw [if_neg hany] at hr
            exact ih rs hrec r hr


/-- The cross-check loop never raises `CdnFromBrewNotFound` itself. -/
theorem filterByVariant_error_ne_cdnFromBrew (env : ErrataEnv) (V : String) :
    ∀ (l : List String) (e : PyErr),
    ImageUtil.filterByVariant env V l = .error e →
    ∀ m, e ≠ .cdnFromBrewNotFound m := by
  intro l
  induction l with
  | nil =>
    intro e h
    unfold ImageUtil.filterByVariant at h
    cases h
  | cons repo rest ih =>
    intro e h m
    unfold ImageUtil.filterByVariant at h
    cases hd : ImageUtil.get_cdn_repo_details env repo with
    | error e2 =>
      simp only [hd, Except.error.injEq] at h
      subst h
      rcases get_cdn_repo_details_error env repo e2 hd with h2 | h2 <;>
        (subst h2; exact fun hcontra => PyErr.noConfusion hcontra)
    | ok doc =>
      simp only [hd] at h
      cases hv : doc.variants with
      | none =>
        simp only [hv, Except.error.injEq] at h
        subst h
        exact fun hcontra => PyErr.noConfusion hcontra
      | some vs =>
        simp only [hv] at h
        cases hrec : ImageUtil.filterByVariant env V rest with
        | error e3 =>
          simp only [hrec, Except.error.injEq] at h
          subst h
          exact ih e3 hrec m
        | ok rs => simp only [hrec] at h; exact Except.noConfusion h

/-- C4 counterexample: with the Errata world `errataEnvC`, the
`pipeline_image_names` version of `brew_to_cdn` (the one the live
`pipeline_from_distgit` driver calls) returns the candidate `cdn-x` as
delivered by the server, although the detail document of `cdn-x` does not
bind the requested variant `8Base-RHOSE-4.10` - so `get_variant_id` returns
Python None for it.  The candidates are not cross-checked client-side. -/
theorem names_brew_to_cdn_returns_unchecked_candidate :
    ImageNames.brew_to_cdn errataEnvC "ose-x-container" "8Base-RHOSE-4.10" =
      .ok ["cdn-x"] ∧
    errataEnvC.cdnVariants "cdn-x" = some [("8Base-RHOSE-4.11", 3)] ∧
    ([("8Base-RHOSE-4.11", 3)].any (fun p => p.1 = "8Base-RHOSE-4.10")) = false ∧
    ImageUtil.get_variant_id errataEnvC "cdn-x" "8Base-RHOSE-4.10" = .ok none := by
  exact ⟨rfl, rfl, by decide, rfl⟩

/-- C4 (amended).  The `pipeline_image_util` version of `brew_to_cdn` does
cross-check: a returned list is nonempty and every returned repo has the
requested variant among the variants of its detail document, and the
function raises `CdnFromBrewNotFound` exactly when the candidate set
survives the cross-check computation as the empty list. -/
theorem util_brew_to_cdn_cross_checks_variants :
    (∀ (env : ErrataEnv) (p V : String) (res : List String),
      ImageUtil.brew_to_cdn env p V = .ok res →
      res ≠ [] ∧ ∀ r ∈ res, ∃ vs, env.cdnVariants r = some vs ∧
        vs.any (fun q => q.1 = V) = true) ∧
    (∀ (env : ErrataEnv) (p V : String),
      (∃ m, ImageUtil.brew_to_cdn env p V = .error (.cdnFromBrewNotFound m)) ↔
      (env.packageTagsStatus p ≠ 401 ∧ env.packageTagsStatus p ≠ 0 ∧
        ImageUtil.filterByVariant env V (pyDedup (env.packageTagsData p)) = .ok [])) := by
  constructor
  · intro env p V res h
    unfold ImageUtil.brew_to_cdn at h
    by_cases h401 : env.packageTagsStatus p = 401
    · rw [if_pos h401] at h
      exact Except.noConfusion h
    · rw [if_neg h401] at h
      by_cases h0 : env.packageTagsStatus p = 0
      · rw [if_pos h0] at h
        exact Except.noConfusion h
      · rw [if_neg h0] at h
        cases hf : ImageUtil.filterByVariant env V (pyDedup (env.packageTagsData p)) with
        | error e => simp only [hf] at h; exact Except.noConfusion h
        | ok results =>
          simp only [hf] at h
          by_cases he : results.isEmpty = true
          · rw [if_pos he] at h
            exact Except.noConfusion h
          · rw [if_neg he] at h
            injection h with h
            subst h
            refine ⟨fun hnil => he (by rw [hnil]; rfl), ?_⟩
            exact filterByVariant_ok_sound env V _ results hf
  · intro env p V
    constructor
    · rintro ⟨m, h⟩
      unfold ImageUtil.brew_to_cdn at h
      by_cases h401 : env.packageTagsStatus p = 401
      · rw [if_pos h401] at h
        injection h with h
        exact PyErr.noConfusion h
      · rw [if_neg h401] at h
        by_cases h0 : env.packageTagsStatus p = 0
        · rw [if_pos h0] at h
          injection h with h
          exact PyErr.noConfusion h
        · rw [if_neg h0] at h
          cases hf : ImageUtil.filterByVariant env V (pyDedup (env.packageTagsData p)) with
          | error e =>
            simp only [hf] at h
            injection h with h
            exact absurd h (filterByVariant_error_ne_cdnFromBrew env V _ e hf m)
          | ok results =>
            simp only [hf] at h
            by_cases he : results.isEmpty = true
            · have hr : results = [] := by
                cases results with
                | nil => rfl
                | cons a as => simp [List.isEmpty] at he
              exact ⟨h401, h0, by rw [hr]⟩
            · rw [if_neg he] at h
              exact Except.noConfusion h
    · rintro ⟨h1, h2, h3⟩
      refine ⟨"CDN was not found for brew `" ++ p ++ "` and variant `" ++ V ++ "`", ?_⟩
      unfold ImageUtil.brew_to_cdn
      rw [if_neg h1, if_neg h2, h3]
      rfl

/-- C4 witness: in the same world `errataEnvC`, the cross-checking
`pipeline_image_util.brew_to_cdn` keeps exactly `cdn-y`, the candidate whose
detail document binds `8Base-RHOSE-4.10`. -/
theorem util_brew_to_cdn_cross_checks_variants_witness :
    (["cdn-y"] : List String) ≠ [] ∧
    ∀ r ∈ ["cdn-y"], ∃ vs, errataEnvC.cdnVariants r = some vs ∧
      vs.any (fun q => q.1 = "8Base-RHOSE-4.10") = true :=
  util_brew_to_cdn_cross_checks_variants.1 errataEnvC "ose-x-container"
    "8Base-RHOSE-4.10" ["cdn-y"] rfl

/-- Elements all of whose members were already seen produce nothing. -/
theorem pyDedupGo_eq_nil (l : List String) :
    ∀ seen, (∀ x ∈ l, x ∈ seen) → pyDedupGo l seen = [] := by
  induction l with
  | nil => intro seen _; rfl
  | cons x xs ih =>
    intro seen h
    unfold pyDedupGo
    rw [if_pos (h x (List.mem_cons_self x xs))]
    exact ih seen (fun y hy => h y (List.mem_cons_of_mem _ hy))

/-- Membership in the deduplication worker. -/
theorem mem_pyDedupGo (a : String) : ∀ (l seen : List String),
    a ∈ pyDedupGo l seen ↔ (a ∈ l ∧ a ∉ seen) := by
  intro l
  induction l with
  | nil => intro seen; simp [pyDedupGo]
  | cons x xs ih =>
    intro seen
    unfold pyDedupGo
    by_cases hx : x ∈ seen
    · rw [if_pos hx, ih]
      constructor
      · rintro ⟨h1, h2⟩
        exact ⟨List.mem_cons_of_mem _ h1, h2⟩
      · rintro ⟨h1, h2⟩
        rcases List.mem_cons.mp h1 with rfl | h1
        · exact absurd hx h2
        · exact ⟨h1, h2⟩
    · rw [if_neg hx]
      simp only [List.mem_cons, ih]
      constructor
      · rintro (rfl | ⟨h1, h2⟩)
        · exact ⟨Or.inl rfl, hx⟩
        · exact ⟨Or.inr h1, fun hs => h2 (Or.inr hs)⟩
      · rintro ⟨rfl | h1, h2⟩
        · exact Or.inl rfl
        · by_cases hax : a = x
          · exact Or.inl hax
          · exact Or.inr ⟨h1, fun hs => hs.elim hax h2⟩

/-- Deduplication of a nonempty list all of whose elements equal `b` is
`[b]`. -/
theorem pyDedup_all_eq (b : String) (l : List String) (hne : l ≠ [])
    (hall : ∀ x ∈ l, x = b) : pyDedup l = [b] := by
  cases l with
  | nil => exact absurd rfl hne
  | cons x xs =>
    have hxb : x = b := hall x (List.mem_cons_self x xs)
    subst hxb
    unfold pyDedup pyDedupGo
    rw [if_neg (List.not_mem_nil x)]
    have : pyDedupGo xs [x] = [] := by
      refine pyDedupGo_eq_nil xs [x] (fun y hy => ?_)
      rw [hall y (List.mem_cons_of_mem _ hy)]
      exact List.mem_singleton.mpr rfl
    rw [this]

/-- A list containing two distinct elements has more than one element. -/
theorem two_distinct_lt_length {α : Type} {l : List α} {a b : α}
    (ha : a ∈ l) (hb : b ∈ l) (hab : a ≠ b) : 1 < l.length := by
  match l with
  | [] => cases ha
  | [x] =>
    rw [List.mem_singleton] at ha hb
    exact absurd (ha.trans hb.symm) hab
  | x :: y :: ys =>
    simp only [List.length_cons]
    omega

/-- C8 counterexample: a delivery repo for which the catalog answers HTTP
200 with an empty image list - so no Brew package has published images under
it - makes `brew_from_delivery` raise the untyped `IndexError` of
`result.pop()` on an empty list, not `BrewFromDeliveryNotFound`. -/
theorem brew_from_delivery_empty_data_index_error :
    ImageUtil.brew_from_delivery pyxisEnvEmpty "openshift4/ose-x" =
      .error .indexError ∧
    PyErr.indexError ≠ PyErr.brewFromDeliveryNotFound
      "Brew package could not be found from delivery repo `openshift4/ose-x`" := by
  exact ⟨rfl, by decide⟩

/-- C8 (amended).  `brew_from_delivery` raises `BrewFromDeliveryNotFound`
when the catalog answers 404; on a success response it raises
`MultipleBrewFromDelivery` when two distinct package names occur, returns
the unique name when all occurrences agree, and fails with an untyped
`IndexError` when the response carries no images at all. -/
theorem brew_from_delivery_cases (env : PyxisEnv) (r : String)
    (h401 : env.imagesStatus r ≠ 401) :
    (env.imagesStatus r = 404 →
      ImageUtil.brew_from_delivery env r = .error (.brewFromDeliveryNotFound
        ("Brew package could not be found from delivery repo `" ++ r ++ "`"))) ∧
    (env.imagesStatus r ≠ 404 → env.imagesData r = [] →
      ImageUtil.brew_from_delivery env r = .error .indexError) ∧
    (env.imagesStatus r ≠ 404 → ∀ a b, a ∈ env.imagesData r →
      b ∈ env.imagesData r → a ≠ b →
      ImageUtil.brew_from_delivery env r = .error (.multipleBrewFromDelivery
        ("Multiple brew packages found for delivery repo `" ++ r ++ "`"))) ∧
    (env.imagesStatus r ≠ 404 → ∀ b, env.imagesData r ≠ [] →
      (∀ x ∈ env.imagesData r, x = b) →
      ImageUtil.brew_from_delivery env r = .ok b) := by
  refine ⟨?_, ?_, ?_, ?_⟩
  · intro h404
    unfold ImageUtil.brew_from_delivery
    rw [if_neg h401, if_pos h404]
  · intro h404 hdata
    unfold ImageUtil.brew_from_delivery
    rw [if_neg h401, if_neg h404]
    simp only [hdata]
    rfl
  · intro h404 a b ha hb hab
    have hmem_a : a ∈ pyDedup (env.imagesData r) :=
      (mem_pyDedupGo a (env.imagesData r) []).mpr ⟨ha, List.not_mem_nil a⟩
    have hmem_b : b ∈ pyDedup (env.imagesData r) :=
      (mem_pyDedupGo b (env.imagesData r) []).mpr ⟨hb, List.not_mem_nil b⟩
    have hlen : 1 < (pyDedup (env.imagesData r)).length :=
      two_distinct_lt_length hmem_a hmem_b hab
    unfold ImageUtil.brew_from_delivery
    rw [if_neg h401, if_neg h404]
    simp only [if_pos hlen]
  · intro h404 b hne hall
    unfold ImageUtil.brew_from_delivery
    rw [if_neg h401, if_neg h404]
    simp only [pyDedup_all_eq b (env.imagesData r) hne hall]
    rfl

/-- C8 witness: a catalog 200 response listing `ose-x-container` twice
yields the unique package name. -/
theorem brew_from_delivery_cases_witness :
    ImageUtil.brew_from_delivery pyxisEnvOne "openshift4/ose-x" =
      .ok "ose-x-container" :=
  (brew_from_delivery_cases pyxisEnvOne "openshift4/ose-x" (by decide)).2.2.2
    (by decide) "ose-x-container" (by decide) (by decide)

/-- The helper `firstVariantId` only returns ids of entries named by the query. -/
theorem firstVariantId_mem (V : String) (i : Int) :
    ∀ vs : List (String × Int),
    ImageUtil.firstVariantId vs V = some i → (V, i) ∈ vs := by
  intro vs
  induction vs with
  | nil => intro h; cases h
  | cons p rest ih =>
    intro h
    match p with
    | (n, j) =>
      unfold ImageUtil.firstVariantId at h
      by_cases hn : n = V
      · rw [if_pos hn] at h
        injection h with h
        subst h
        subst hn
        exact List.mem_cons_self _ _
      · rw [if_neg hn] at h
        exact List.mem_cons_of_mem _ (ih h)

/-- The helper `firstVariantId` misses exactly when no entry is named by the query. -/
theorem firstVariantId_eq_none (V : String) :
    ∀ vs : List (String × Int),
    (∀ p ∈ vs, p.1 ≠ V) → ImageUtil.firstVariantId vs V = none := by
  intro vs
  induction vs with
  | nil => intro _; rfl
  | cons p rest ih =>
    intro h
    match p with
    | (n, j) =>
      unfold ImageUtil.firstVariantId
      rw [if_neg (h (n, j) (List.mem_cons_self _ _))]
      exact ih (fun q hq => h q (List.mem_cons_of_mem _ hq))

/-- C9 counterexample: for the CDN repo `cdn-z`, whose well-formed detail
document binds only `8Base-RHOSE-4.10`, asking for `8Base-RHOSE-4.11`
returns Python None (`.ok none`) - the match loop falls through without
raising - rather than raising `VariantIdNotFound`. -/
theorem get_variant_id_returns_none_when_variant_absent :
    ImageUtil.get_variant_id errataEnvD "cdn-z" "8Base-RHOSE-4.11" = .ok none ∧
    (Except.ok (none : Option Int) : Except PyErr (Option Int)) ≠
      .error (.variantIdNotFound
        "Variant ID not found for CDN `cdn-z` and variant `8Base-RHOSE-4.11`") := by
  exact ⟨rfl, fun h => Except.noConfusion h⟩

/-- C9 (amended).  With a retrievable detail document: when the variants
structure is present, `get_variant_id` returns the id of the first entry
named `V` and returns Python None - with no exception - when no entry is
named `V`; it raises `VariantIdNotFound` only when the variants structure
itself is missing, so that accessing it raises. -/
theorem get_variant_id_characterization :
    (∀ (env : ErrataEnv) (c V : String) (vs : List (String × Int)),
      ImageUtil.get_cdn_repo_details env c = .ok ⟨some vs⟩ →
      (∀ i, ImageUtil.firstVariantId vs V = some i →
        ImageUtil.get_variant_id env c V = .ok (some i) ∧ (V, i) ∈ vs) ∧
      ((∀ p ∈ vs, p.1 ≠ V) → ImageUtil.get_variant_id env c V = .ok none)) ∧
    (∀ (env : ErrataEnv) (c V : String),
      ImageUtil.get_cdn_repo_details env c = .ok ⟨none⟩ →
      ImageUtil.get_variant_id env c V = .error (.variantIdNotFound
        ("Variant ID not found for CDN `" ++ c ++ "` and variant `" ++ V ++ "`"))) := by
  constructor
  · intro env c V vs h
    constructor
    · intro i hi
      constructor
      · unfold ImageUtil.get_variant_id
        simp only [h, hi]
      · exact firstVariantId_mem V i vs hi
    · intro hmiss
      unfold ImageUtil.get_variant_id
      simp only [h, firstVariantId_eq_none V vs hmiss]
  · intro env c V h
    unfold ImageUtil.get_variant_id
    simp only [h]

/-- C9 witness: in the world `errataEnvD`, the bound variant resolves to its
id 7. -/
theorem get_variant_id_characterization_witness :
    ImageUtil.get_variant_id errataEnvD "cdn-z" "8Base-RHOSE-4.10" =
      .ok (some 7) ∧
    ("8Base-RHOSE-4.10", (7 : Int)) ∈ [("8Base-RHOSE-4.10", (7 : Int))] :=
  (get_variant_id_characterization.1 errataEnvD "cdn-z" "8Base-RHOSE-4.10"
    [("8Base-RHOSE-4.10", 7)] rfl).1 7 rfl

/-- C10.  `get_image_stream_tag` ignores the HTTP status entirely (first
conjunct); a body that is not a YAML mapping makes it raise `AttributeError`
(second); it returns Python None exactly when the body is a mapping without
a truthy `for_payload` key (third); and with a truthy `for_payload` and a
string `name` field with a second `/`-segment it returns that segment with
a leading `ose-` stripped (fourth). -/
theorem get_image_stream_tag_spec :
    (∀ (s t : Int) (b : Yaml),
      ImageUtil.get_image_stream_tag s b = ImageUtil.get_image_stream_tag t b) ∧
    (∀ (s : Int) (b : Yaml), (∀ d, b ≠ .dictV d) →
      ImageUtil.get_image_stream_tag s b = .error .attributeError) ∧
    (∀ (s : Int) (d : List (String × Yaml)),
      ImageUtil.get_image_stream_tag s (.dictV d) = .ok none ↔
      ((dictGet? d "for_payload").getD (.boolV false)).truthy = false) ∧
    (∀ (s : Int) (d : List (String × Yaml)) (name : String),
      ((dictGet? d "for_payload").getD (.boolV false)).truthy = true →
      dictGet? d "name" = some (.strV name) →
      ∀ tag, (pySplit name "/").get? 1 = some tag →
      ImageUtil.get_image_stream_tag s (.dictV d) =
        .ok (some (if pyStartsWith tag "ose-" then pyDrop tag 4 else tag))) := by
  refine ⟨?_, ?_, ?_, ?_⟩
  · intro s t b
    rfl
  · intro s b hb
    cases b with
    | dictV d => exact absurd rfl (hb d)
    | nullV => rfl
    | boolV x => rfl
    | intV x => rfl
    | strV x => rfl
    | listV x => rfl
  · intro s d
    simp only [ImageUtil.get_image_stream_tag]
    cases ht : ((dictGet? d "for_payload").getD (.boolV false)).truthy with
    | false => simp
    | true =>
      rw [if_pos rfl]
      constructor
      · intro h
        exfalso
        cases hn : dictGet? d "name" with
        | none => simp only [hn] at h; exact Except.noConfusion h
        | some y =>
          cases y with
          | strV sv =>
            simp only [hn] at h
            cases hg : (pySplit sv "/").get? 1 with
            | none => simp only [hg] at h; exact Except.noConfusion h
            | some tag =>
              simp only [hg] at h
              injection h with h
              exact Option.noConfusion h
          | nullV => simp only [hn] at h; exact Except.noConfusion h
          | boolV x => simp only [hn] at h; exact Except.noConfusion h
          | intV x => simp only [hn] at h; exact Except.noConfusion h
          | listV x => simp only [hn] at h; exact Except.noConfusion h
          | dictV x => simp only [hn] at h; exact Except.noConfusion h
      · intro h
        exact Bool.noConfusion h
  · intro s d name ht hn tag hg
    simp only [ImageUtil.get_image_stream_tag]
    rw [if_pos ht]
    simp only [hn, hg]

/-- C10 witness: statuses 200 and 404 agree on every body; a plain-text 404
body (a YAML string, not a mapping) raises `AttributeError`; and a payload
recipe with name `openshift/ose-etcd` yields tag `etcd`. -/
theorem get_image_stream_tag_spec_witness :
    ImageUtil.get_image_stream_tag 200 (.strV "Not Found") =
      ImageUtil.get_image_stream_tag 404 (.strV "Not Found") ∧
    ImageUtil.get_image_stream_tag 404 (.strV "Not Found") =
      .error .attributeError ∧
    ImageUtil.get_image_stream_tag 200
      (.dictV [("for_payload", .boolV true), ("name", .strV "openshift/ose-etcd")]) =
      .ok (some "etcd") :=
  ⟨get_image_stream_tag_spec.1 200 404 (.strV "Not Found"),
   get_image_stream_tag_spec.2.1 404 (.strV "Not Found")
     (fun d h => Yaml.noConfusion h),
   get_image_stream_tag_spec.2.2.2 200
     [("for_payload", .boolV true), ("name", .strV "openshift/ose-etcd")]
     "openshift/ose-etcd" rfl rfl "ose-etcd" rfl⟩

/-- The projection `sayMsgs` distributes over append. -/
theorem sayMsgs_append : ∀ (a b : List ImageNames.Ev),
    ImageNames.sayMsgs (a ++ b) = ImageNames.sayMsgs a ++ ImageNames.sayMsgs b := by
  intro a b
  induction a with
  | nil => rfl
  | cons e rest ih => cases e <;> simp [ImageNames.sayMsgs, ih]

/-- Call-only event lists contain no chat replies. -/
theorem sayMsgs_of_callOnly : ∀ (evs : List ImageNames.Ev),
    ImageNames.callOnly evs = true → ImageNames.sayMsgs evs = [] := by
  intro evs
  induction evs with
  | nil => intro _; rfl
  | cons e rest ih =>
    intro h
    cases e with
    | say m => simp [ImageNames.callOnly] at h
    | monitoringSay m => simp [ImageNames.callOnly] at h
    | call f =>
      simp only [ImageNames.callOnly, List.all_cons, Bool.and_eq_true] at h
      exact ih h.2

/-- The predicate `callOnly` distributes over append. -/
theorem callOnly_append (a b : List ImageNames.Ev) :
    ImageNames.callOnly (a ++ b) = (ImageNames.callOnly a && ImageNames.callOnly b) := by
  simp [ImageNames.callOnly, List.all_append]

/-- The per-CDN loop only logs lookup invocations. -/
theorem cdnLoop_callOnly (env : ImageNames.DriverEnv) (variant : String) :
    ∀ (l : List String) (payload : String) (evs : List ImageNames.Ev),
    ImageNames.callOnly evs = true →
    ImageNames.callOnly (ImageNames.cdnLoop env variant l payload evs).2.1 = true := by
  intro l
  induction l with
  | nil => intro payload evs h; exact h
  | cons cdn rest ih =>
    intro payload evs h
    unfold ImageNames.cdnLoop
    dsimp only
    repeat' split
    all_goals first
      | simpa [callOnly_append, ImageNames.callOnly] using h
      | exact ih _ _ (by simpa [callOnly_append, ImageNames.callOnly] using h)

/-- The `try` block only logs lookup invocations. -/
theorem tryBlock_callOnly (env : ImageNames.DriverEnv) (dg v payload : String) :
    ImageNames.callOnly (ImageNames.tryBlock env dg v payload).2.1 = true := by
  unfold ImageNames.tryBlock
  dsimp only
  repeat' split
  all_goals first
    | rfl
    | (refine cdnLoop_callOnly env _ _ _ _ ?_; rfl)

/-- Prefix facts for accumulated report strings. -/
theorem str_prefix_append (p q : String) : ∃ mid, p ++ q = p ++ mid := ⟨q, rfl⟩

/-- Reflexivity of the prefix relation used below. -/
theorem str_prefix_refl (p : String) : ∃ mid, p = p ++ mid :=
  ⟨"", (String.append_empty p).symm⟩

/-- Transitivity of the prefix relation used below. -/
theorem str_prefix_trans {p q r : String} (h1 : ∃ m, q = p ++ m)
    (h2 : ∃ m, r = q ++ m) : ∃ m, r = p ++ m := by
  obtain ⟨m1, hm1⟩ := h1
  obtain ⟨m2, hm2⟩ := h2
  exact ⟨m1 ++ m2, by rw [hm2, hm1, String.append_assoc]⟩

/-- The per-CDN loop only ever appends to the accumulated payload. -/
theorem cdnLoop_extends (env : ImageNames.DriverEnv) (variant : String) :
    ∀ (l : List String) (payload : String) (evs : List ImageNames.Ev),
    ∃ mid, (ImageNames.cdnLoop env variant l payload evs).1 = payload ++ mid := by
  intro l
  induction l with
  | nil => intro payload evs; exact str_prefix_refl payload
  | cons cdn rest ih =>
    intro payload evs
    unfold ImageNames.cdnLoop
    dsimp only
    repeat' split
    all_goals first
      | exact str_prefix_refl _
      | exact str_prefix_append _ _
      | exact str_prefix_trans
          (str_prefix_trans (str_prefix_append _ _) (str_prefix_append _ _))
          (ih _ _)

/-- The `try` block only ever appends to the payload it is given, so the
payload it hands back always extends the upstream report. -/
theorem tryBlock_extends (env : ImageNames.DriverEnv) (dg v payload : String) :
    ∃ mid, (ImageNames.tryBlock env dg v payload).1 = payload ++ mid := by
  unfold ImageNames.tryBlock
  dsimp only
  repeat' split
  all_goals first
    | exact str_prefix_refl _
    | exact str_prefix_append _ _
    | exact str_prefix_trans (str_prefix_append _ _) (str_prefix_append _ _)
    | exact str_prefix_trans (str_prefix_append _ _) (cdnLoop_extends env _ _ _ _)
    | exact str_prefix_trans
        (str_prefix_trans (str_prefix_append _ _) (str_prefix_append _ _))
        (cdnLoop_extends env _ _ _ _)
    | exact str_prefix_trans
        (str_prefix_trans
          (str_prefix_trans (str_prefix_append _ _) (str_prefix_append _ _))
          (str_prefix_append _ _))
        (cdnLoop_extends env _ _ _ _)

/-- C6.  When the existence probe on the starting dist-git fails, the driver
emits the progress message, the single explicit does-not-exist reply (plus
its monitoring copy), performs no downstream lookup at all (the only
invocation logged is the probe itself), and nothing escapes. -/
theorem pipeline_from_distgit_nonexistent_short_circuit
    (env : ImageNames.DriverEnv) (dg : String) (ver : Option String)
    (h : env.distgit_is_available dg = false) :
    ImageNames.pipeline_from_distgit env dg ver =
      ([.say ImageNames.fetchMsg, .call "distgit_is_available",
        .monitoringSay (ImageNames.noDistgitMsg dg),
        .say (ImageNames.noDistgitMsg dg)], none) ∧
    ImageNames.callFns (ImageNames.pipeline_from_distgit env dg ver).1 =
      ["distgit_is_available"] ∧
    ImageNames.sayMsgs (ImageNames.pipeline_from_distgit env dg ver).1 =
      [ImageNames.fetchMsg, ImageNames.noDistgitMsg dg] := by
  have h0 : ImageNames.pipeline_from_distgit env dg ver =
      ([.say ImageNames.fetchMsg, .call "distgit_is_available",
        .monitoringSay (ImageNames.noDistgitMsg dg),
        .say (ImageNames.noDistgitMsg dg)], none) := by
    unfold ImageNames.pipeline_from_distgit
    dsimp only
    rw [h]
    rfl
  refine ⟨h0, ?_, ?_⟩ <;> (rw [h0]; rfl)

/-- C6 witness: a concrete world whose probe rejects every name. -/
theorem pipeline_from_distgit_nonexistent_short_circuit_witness :
    ImageNames.pipeline_from_distgit driverEnvUnavail "no-such-dg" (some "4.10") =
      ([.say ImageNames.fetchMsg, .call "distgit_is_available",
        .monitoringSay (ImageNames.noDistgitMsg "no-such-dg"),
        .say (ImageNames.noDistgitMsg "no-such-dg")], none) ∧
    ImageNames.callFns
      (ImageNames.pipeline_from_distgit driverEnvUnavail "no-such-dg" (some "4.10")).1 =
      ["distgit_is_available"] ∧
    ImageNames.sayMsgs
      (ImageNames.pipeline_from_distgit driverEnvUnavail "no-such-dg" (some "4.10")).1 =
      [ImageNames.fetchMsg, ImageNames.noDistgitMsg "no-such-dg"] :=
  pipeline_from_distgit_nonexistent_short_circuit driverEnvUnavail "no-such-dg"
    (some "4.10") rfl

/-- C7.  When the probe and the GitHub lookup succeed and a lookup inside
the `try` block then raises a taxonomy (`ArtBotExceptions`) error, the
driver emits exactly one reply after the progress message, and that reply is
the accumulated payload - which extends the already-resolved upstream
GitHub/dist-git report - followed by a newline and the error message. -/
theorem pipeline_from_distgit_partial_report_on_taxonomy_error
    (env : ImageNames.DriverEnv) (dg : String) (ver : Option String)
    (g p : String) (e : PyErr) (tevs : List ImageNames.Ev)
    (havail : env.distgit_is_available dg = true)
    (hgh : env.get_github_from_distgit dg (ImageNames.verString ver) = .ok g)
    (htry : ImageNames.tryBlock env dg (ImageNames.verString ver)
      (ImageNames.upstreamReport g dg) = (p, tevs, some e))
    (hart : e.isArtBot = true) :
    ImageNames.sayMsgs (ImageNames.pipeline_from_distgit env dg ver).1 =
      [ImageNames.fetchMsg, p ++ "\n" ++ e.message] ∧
    ∃ mid, p = ImageNames.upstreamReport g dg ++ mid := by
  have hco : ImageNames.callOnly tevs = true := by
    have hc := tryBlock_callOnly env dg (ImageNames.verString ver)
      (ImageNames.upstreamReport g dg)
    rw [htry] at hc
    exact hc
  have hpre : ∃ mid, p = ImageNames.upstreamReport g dg ++ mid := by
    have hc := tryBlock_extends env dg (ImageNames.verString ver)
      (ImageNames.upstreamReport g dg)
    rw [htry] at hc
    exact hc
  refine ⟨?_, hpre⟩
  unfold ImageNames.pipeline_from_distgit
  dsimp only
  rw [havail]
  simp [hgh, htry, hart, sayMsgs_append, sayMsgs_of_callOnly tevs hco,
    ImageNames.sayMsgs]

/-- C7 witness: in the world `driverEnvArtBot`, the Brew lookup raises
`DistgitNotFound` after the GitHub lines resolved, and the single reply is
the upstream report followed by the error text. -/
theorem pipeline_from_distgit_partial_report_on_taxonomy_error_witness :
    ImageNames.sayMsgs
      (ImageNames.pipeline_from_distgit driverEnvArtBot "dg" (some "4.10")).1 =
      [ImageNames.fetchMsg,
        ImageNames.upstreamReport "repo" "dg" ++ "\n" ++
          "image dist-git dg definition was not found at https://raw.githubusercontent.com/openshift/ocp-build-data/openshift-4.10/images/dg.yml"] ∧
    ∃ mid, ImageNames.upstreamReport "repo" "dg" =
      ImageNames.upstreamReport "repo" "dg" ++ mid :=
  pipeline_from_distgit_partial_report_on_taxonomy_error driverEnvArtBot "dg"
    (some "4.10") "repo" (ImageNames.upstreamReport "repo" "dg")
    (.distgitNotFound
      "image dist-git dg definition was not found at https://raw.githubusercontent.com/openshift/ocp-build-data/openshift-4.10/images/dg.yml")
    [ImageNames.Ev.call "distgit_to_brew"] rfl rfl rfl rfl

/-- C5.  [code_bug evaluation] Two failure modes violate the one-reply
policy.  In `driverEnvGhFail` the GitHub lookup raises its taxonomy error
outside the `try` block: the exception escapes `pipeline_from_distgit`
(second component `some ...`) and the sink receives no reply beyond the
progress message - a silent failure.  In `driverEnvKoji` the
`KojiClientError` handler replies with the error message but does not
return, so the driver falls through to the final `so.say(payload)`: the
sink receives two replies after the progress message. -/
theorem pipeline_from_distgit_reply_count_violations :
    (ImageNames.sayMsgs
        (ImageNames.pipeline_from_distgit driverEnvGhFail "dg" (some "4.10")).1 =
        [ImageNames.fetchMsg] ∧
      (ImageNames.pipeline_from_distgit driverEnvGhFail "dg" (some "4.10")).2 =
        some (.githubFromDistgitNotFound
          "Couldn\x27t find GitHub repo from distgit `dg` and version `4.10`")) ∧
    (ImageNames.sayMsgs
        (ImageNames.pipeline_from_distgit driverEnvKoji "dg" (some "4.10")).1 =
        [ImageNames.fetchMsg, "Failed to connect to Brew.",
          ImageNames.upstreamReport "repo" "dg"] ∧
      (ImageNames.pipeline_from_distgit driverEnvKoji "dg" (some "4.10")).2 =
        none) := by
  exact ⟨⟨rfl, rfl⟩, ⟨rfl, rfl⟩⟩
